import Mathlib

/-!
Verification of the declarative CRUD-endpoint generator (bots API).

The development shallowly embeds the predicate compiler
(api/generic/filters.py), the generic router factory
(api/generic/router.py), the hand-written bot routes
(api/routes/bots.py), the Bot model and its timestamp bookkeeping
(models/bot.py, db/base.py), the Bot schemas (schemas/bot.py) and the
request-scoped session (db/session.py).

Modelling conventions:
* strings are lists of characters (`Str`), timestamps are integers
  (`datetime` carries a total order; only order matters here);
* a SQL query is represented by its list of AND-combined WHERE clauses,
  each a Boolean predicate on a row; executing a SELECT over a table is
  filtering the row list with the conjunction of the clauses;
* SQL three-valued logic is embedded by its net effect on row selection:
  a comparison involving NULL never selects the row;
* `ILIKE` is case-insensitive LIKE: literal characters compare through
  `Char.toLower`, `%` matches any sequence, `_` matches one character,
  and the declared escape character makes the next pattern character
  literal;
* Python `math.ceil(total / per_page)` on non-negative ints is embedded
  as the exact ceiling `(total + per_page - 1) / per_page` (proved below
  to agree with the mathematical ceiling of the exact quotient).
-/

/-- Strings of the data model (SQL TEXT/VARCHAR values). -/
abbrev Str := List Char

/-- All suffixes of a list, longest first (including the list itself and
the empty suffix). -/
def suffixes : List Char → List Str
  | [] => [[]]
  | c :: t => (c :: t) :: suffixes t

/-- Case-insensitive SQL LIKE matching with escape character `\`
(`p` is the pattern, `s` the candidate string).  `%` matches any
sequence, `_` any single character, `\x` the literal character `x`;
ordinary characters compare case-insensitively (ILIKE).  A pattern
ending in a dangling escape matches nothing. -/
def likeMatchCI : List Char → Str → Bool
  | [], s => s.isEmpty
  | c :: p, s =>
    if c = '%' then
      (suffixes s).any fun t => likeMatchCI p t
    else if c = '\\' then
      match p with
      | [] => false
      | d :: p2 =>
        match s with
        | [] => false
        | e :: s2 => (e.toLower = d.toLower) && likeMatchCI p2 s2
    else if c = '_' then
      match s with
      | _ :: s2 => likeMatchCI p s2
      | [] => false
    else
      match s with
      | e :: s2 => (e.toLower = c.toLower) && likeMatchCI p s2
      | [] => false

/-- Python `value.replace(old, new)` for a single-character needle. -/
def replaceChar (c : Char) (r : Str) (s : Str) : Str :=
  s.flatMap fun x => if x = c then r else [x]

/-- The wildcard-escaping of filters.py line 71 and bots.py line 45:
`value.replace("\\", "\\\\").replace("%", "\\%").replace("_", "\\_")`. -/
def escapeLike (v : Str) : Str :=
  replaceChar '_' ['\\', '_'] (replaceChar '%' ['\\', '%'] (replaceChar '\\' ['\\', '\\'] v))

/-- Per-character view of `escapeLike` (used only in proofs). -/
def escChar (c : Char) : Str :=
  if c = '\\' ∨ c = '%' ∨ c = '_' then ['\\', c] else [c]

/-- The ILIKE pattern built for a substring filter value `v`:
`f"%{escaped}%"`. -/
def containsPattern (v : Str) : List Char :=
  '%' :: escapeLike v ++ ['%']

/-- The persisted Bot row (models/bot.py plus the three auto-managed
columns of db/base.py).  `last_run_at` and `last_run_log` are nullable
columns, embedded as `Option`. -/
structure BotRow where
  id : Str
  rig_id : Str
  last_run_at : Option Int
  kill_switch : Bool
  last_run_log : Option Str
  create_at : Int
  last_update_at : Int
deriving DecidableEq, Repr

/-- A SQL column value as seen by a WHERE clause: typed data or NULL. -/
inductive Value where
  | str (s : Str)
  | bool (b : Bool)
  | time (t : Int)
  | null
deriving DecidableEq, Repr

/-- A supplied (non-absent) filter parameter value.  The HTTP layer maps
an absent query parameter to Python `None`, which `apply_filters` skips
with its `is not None` guard, so a supplied value is never NULL. -/
inductive ParamV where
  | str (s : Str)
  | bool (b : Bool)
  | time (t : Int)
deriving DecidableEq, Repr

/-- The columns of the Bot model that `getattr(model, column_name)` can
resolve. -/
inductive BotColumn where
  | id | rig_id | last_run_at | kill_switch | last_run_log
  | create_at | last_update_at
deriving DecidableEq, Repr

/-- Column access (`getattr(model, field.column_name)` evaluated on a
row); a SQL NULL in a nullable column becomes `Value.null`. -/
def BotRow.getCol (r : BotRow) : BotColumn → Value
  | .id => .str r.id
  | .rig_id => .str r.rig_id
  | .last_run_at => match r.last_run_at with
      | some t => .time t
      | none => .null
  | .kill_switch => .bool r.kill_switch
  | .last_run_log => match r.last_run_log with
      | some s => .str s
      | none => .null
  | .create_at => .time r.create_at
  | .last_update_at => .time r.last_update_at

/-- SQL `column == value` under three-valued logic: NULL (and a type
mismatch, which a well-typed request never produces) selects nothing. -/
def Value.sqlEq : Value → ParamV → Bool
  | .str x, .str y => x = y
  | .bool x, .bool y => x = y
  | .time x, .time y => x = y
  | _, _ => false

/-- SQL `column ILIKE pattern ESCAPE '\'` on a possibly-NULL column. -/
def Value.ilike : Value → List Char → Bool
  | .str s, p => likeMatchCI p s
  | _, _ => false

/-- SQL `column >= bound` on a possibly-NULL timestamp column. -/
def Value.sqlGE : Value → Int → Bool
  | .time t, b => b ≤ t
  | _, _ => false

/-- SQL `column <= bound` on a possibly-NULL timestamp column. -/
def Value.sqlLE : Value → Int → Bool
  | .time t, b => t ≤ b
  | _, _ => false

/-- FilterType (filters.py): EXACT, ILIKE (SUBSTRING in the spec), or
DATE_RANGE. -/
inductive FilterType where
  | EXACT | ILIKE | DATE_RANGE
deriving DecidableEq, Repr

/-- FilterField (filters.py): declarative filter-field configuration.
`python_type` is omitted: it only feeds the OpenAPI schema synthesis. -/
structure FilterField where
  column_name : BotColumn
  filter_type : FilterType
  param_name : Option String := none

/-- Helper for `FilterField.effective_param_name`: `param_name` defaulting to the
column name. -/
def BotColumn.pyName : BotColumn → String
  | .id => "id"
  | .rig_id => "rig_id"
  | .last_run_at => "last_run_at"
  | .kill_switch => "kill_switch"
  | .last_run_log => "last_run_log"
  | .create_at => "create_at"
  | .last_update_at => "last_update_at"

/-- Derived property `effective_param_name` of FilterField. -/
def FilterField.effective_param_name (f : FilterField) : String :=
  f.param_name.getD f.column_name.pyName

/-- A WHERE clause, as the row predicate it denotes. -/
abbrev Clause := BotRow → Bool

/-- The Python idiom `if value is not None: query = query.where(mk value)`:
append one clause when the optional value is supplied. -/
def whereOpt (q : List Clause) (o : Option α) (mk : α → Clause) : List Clause :=
  match o with
  | none => q
  | some v => q ++ [mk v]

/-- Projection used by the ILIKE branch: the synthesized parameter
object types a SUBSTRING parameter as `str`, so a supplied value is
always a string. -/
def ParamV.asStr : ParamV → Option Str
  | .str s => some s
  | _ => none

/-- Projection used by the DATE_RANGE branch: the synthesized parameter
object types the `_after`/`_before` parameters as `datetime`. -/
def ParamV.asTime : ParamV → Option Int
  | .time t => some t
  | _ => none

/-- Function `apply_filters` (filters.py lines 42-84): walk the descriptor list
in order, appending WHERE clauses for every supplied value. -/
def apply_filters (query : List Clause) (filter_config : List FilterField)
    (filter_values : String → Option ParamV) : List Clause :=
  match filter_config with
  | [] => query
  | field :: rest =>
    let q' : List Clause :=
      match field.filter_type with
      | .EXACT =>
        whereOpt query (filter_values field.effective_param_name)
          (fun v r => (r.getCol field.column_name).sqlEq v)
      | .ILIKE =>
        whereOpt query ((filter_values field.effective_param_name).bind ParamV.asStr)
          (fun v r => (r.getCol field.column_name).ilike (containsPattern v))
      | .DATE_RANGE =>
        let q1 := whereOpt query
          ((filter_values (field.effective_param_name ++ "_after")).bind ParamV.asTime)
          (fun a r => (r.getCol field.column_name).sqlGE a)
        whereOpt q1
          ((filter_values (field.effective_param_name ++ "_before")).bind ParamV.asTime)
          (fun b r => (r.getCol field.column_name).sqlLE b)
    apply_filters q' rest filter_values

/-- A row matches a query when every WHERE clause holds (AND). -/
def matchesQuery (q : List Clause) (r : BotRow) : Bool :=
  q.all fun c => c r

/-- The default `ORDER BY create_at DESC, id DESC` as a "may precede" relation:
`a` may come no later than `b` in the returned sequence.  String
comparison on `id` is the lexicographic order on characters. -/
def botLE (a b : BotRow) : Prop :=
  b.create_at < a.create_at ∨ (b.create_at = a.create_at ∧ b.id ≤ a.id)

/-- Strict version of `botLE`: `a` strictly precedes `b`. -/
def botLT (a b : BotRow) : Prop :=
  b.create_at < a.create_at ∨ (b.create_at = a.create_at ∧ b.id < a.id)

instance : DecidableRel botLE := fun a b => by
  unfold botLE; infer_instance

instance : DecidableRel botLT := fun a b => by
  unfold botLT; infer_instance

instance : IsTotal BotRow botLE where
  total a b := by
    unfold botLE
    rcases lt_trichotomy a.create_at b.create_at with h | h | h
    · exact Or.inr (Or.inl h)
    · rcases le_total a.id b.id with hid | hid
      · exact Or.inr (Or.inr ⟨h, hid⟩)
      · exact Or.inl (Or.inr ⟨h.symm, hid⟩)
    · exact Or.inl (Or.inl h)

instance : IsTrans BotRow botLE where
  trans a b c hab hbc := by
    unfold botLE at *
    rcases hab with h1 | ⟨e1, i1⟩
    · rcases hbc with h2 | ⟨e2, _⟩
      · exact Or.inl (h2.trans h1)
      · exact Or.inl (e2 ▸ h1)
    · rcases hbc with h2 | ⟨e2, i2⟩
      · exact Or.inl (e1 ▸ h2)
      · exact Or.inr ⟨e2.trans e1, i2.trans i1⟩

instance : IsAntisymm BotRow botLT where
  antisymm a b hab hba := by
    unfold botLT at *
    rcases hab with h1 | ⟨e1, i1⟩ <;> rcases hba with h2 | ⟨e2, i2⟩
    · exact absurd (h1.trans h2) (lt_irrefl _)
    · exact absurd (e2 ▸ h1) (lt_irrefl _)
    · exact absurd (e1 ▸ h2) (lt_irrefl _)
    · exact absurd (i1.trans i2) (lt_irrefl _)

/-- The paginated response envelope (schemas/generic.py `ListResponse`).
Serialization through the response schema keeps every Bot column, so
items stay rows. -/
structure ListEnvelope where
  items : List BotRow
  total : Nat
  page : Nat
  per_page : Nat
  pages : Nat
deriving DecidableEq, Repr

/-- Embeds `math.ceil(total / per_page)` for ints `total ≥ 0`, `per_page ≥ 1`:
the exact ceiling of the quotient (proved to equal the mathematical
ceiling in `ceilNat_eq_ceil` below). -/
def ceilNat (a b : Nat) : Nat :=
  (a + b - 1) / b

/-- Handler `list_items` of `create_read_router` (router.py lines 56-93) with
the default `sort_columns`, over a database state `db`.  The count query
and the data query both run `apply_filters` on the same descriptor list
and value map; `insertionSort botLE` stands for the row sequence the
store returns for `ORDER BY create_at DESC, id DESC` (unique by
`list_page_deterministic` below when ids are distinct). -/
def list_items (filter_config : List FilterField) (db : List BotRow)
    (page per_page : Nat) (filter_values : String → Option ParamV) : ListEnvelope :=
  let clauses := apply_filters [] filter_config filter_values
  let matched := db.filter (matchesQuery clauses)
  let total := matched.length
  let sorted := List.insertionSort botLE matched
  let items := (sorted.drop ((page - 1) * per_page)).take per_page
  let pages := if 0 < total then ceilNat total per_page else 0
  { items := items, total := total, page := page, per_page := per_page, pages := pages }

/-- Structure `BotFilters` (bots.py lines 19-31): the nine optional filter
parameters of the hand-written list endpoint. -/
structure BotFilters where
  rig_id : Option Str := none
  kill_switch : Option Bool := none
  log_search : Option Str := none
  create_at_after : Option Int := none
  create_at_before : Option Int := none
  last_update_at_after : Option Int := none
  last_update_at_before : Option Int := none
  last_run_at_after : Option Int := none
  last_run_at_before : Option Int := none

/-- Nullable-column ILIKE, as issued by bots.py line 46 on
`Bot.last_run_log`. -/
def optIlike (col : Option Str) (p : List Char) : Bool :=
  match col with
  | some s => likeMatchCI p s
  | none => false

/-- Nullable-column `>=`, as issued by bots.py on `Bot.last_run_at`. -/
def optGE (col : Option Int) (b : Int) : Bool :=
  match col with
  | some t => b ≤ t
  | none => false

/-- Nullable-column `<=`, as issued by bots.py on `Bot.last_run_at`. -/
def optLE (col : Option Int) (b : Int) : Bool :=
  match col with
  | some t => t ≤ b
  | none => false

/-- Function `_apply_bot_filters` (bots.py lines 34-59): the hand-written filter
application, one conditional `where` per supplied parameter, in source
order. -/
def apply_bot_filters (query : List Clause) (filters : BotFilters) : List Clause :=
  let q1 := whereOpt query filters.rig_id fun v r => r.rig_id = v
  let q2 := whereOpt q1 filters.kill_switch fun v r => r.kill_switch = v
  let q3 := whereOpt q2 filters.log_search fun v r =>
    optIlike r.last_run_log ('%' :: escapeLike v ++ ['%'])
  let q4 := whereOpt q3 filters.create_at_after fun a r => a ≤ r.create_at
  let q5 := whereOpt q4 filters.create_at_before fun b r => r.create_at ≤ b
  let q6 := whereOpt q5 filters.last_update_at_after fun a r => a ≤ r.last_update_at
  let q7 := whereOpt q6 filters.last_update_at_before fun b r => r.last_update_at ≤ b
  let q8 := whereOpt q7 filters.last_run_at_after fun a r => optGE r.last_run_at a
  whereOpt q8 filters.last_run_at_before fun b r => optLE r.last_run_at b

/-- Handler `list_bots` (bots.py lines 62-116): count with the shared filters,
fetch the page ordered by `create_at DESC, id DESC`, compute pages. -/
def list_bots (db : List BotRow) (page per_page : Nat) (filters : BotFilters) : ListEnvelope :=
  let clauses := apply_bot_filters [] filters
  let matched := db.filter (matchesQuery clauses)
  let total := matched.length
  let sorted := List.insertionSort botLE matched
  let items := (sorted.drop ((page - 1) * per_page)).take per_page
  let pages := if 0 < total then ceilNat total per_page else 0
  { items := items, total := total, page := page, per_page := per_page, pages := pages }

/-- The descriptor list of the Bot resource, as named in the generic-router
comparison: rig_id EXACT, kill_switch EXACT (bool), log_search SUBSTRING
on last_run_log, DATE_RANGE on create_at, last_update_at, last_run_at. -/
def botFilterConfig : List FilterField :=
  [ { column_name := .rig_id, filter_type := .EXACT },
    { column_name := .kill_switch, filter_type := .EXACT },
    { column_name := .last_run_log, filter_type := .ILIKE, param_name := some "log_search" },
    { column_name := .create_at, filter_type := .DATE_RANGE },
    { column_name := .last_update_at, filter_type := .DATE_RANGE },
    { column_name := .last_run_at, filter_type := .DATE_RANGE } ]

/-- The flat parameter map `dataclasses.asdict(filters)` the generic
endpoint receives for the Bot filter set. -/
def botVals (f : BotFilters) : String → Option ParamV := fun p =>
  if p = "rig_id" then f.rig_id.map ParamV.str
  else if p = "kill_switch" then f.kill_switch.map ParamV.bool
  else if p = "log_search" then f.log_search.map ParamV.str
  else if p = "create_at_after" then f.create_at_after.map ParamV.time
  else if p = "create_at_before" then f.create_at_before.map ParamV.time
  else if p = "last_update_at_after" then f.last_update_at_after.map ParamV.time
  else if p = "last_update_at_before" then f.last_update_at_before.map ParamV.time
  else if p = "last_run_at_after" then f.last_run_at_after.map ParamV.time
  else if p = "last_run_at_before" then f.last_run_at_before.map ParamV.time
  else none

/-- The default identifier-format constraint, regex `^[a-zA-Z0-9]{32}$`,
shared as the `id_pattern` default by `create_read_router`,
`create_update_router` and `create_delete_router` (router.py lines 29,
186, 245); the path value is checked against it before the handler body
runs. -/
def matchesIdFormat (s : Str) : Bool :=
  s.length = 32 && s.all fun c => c.isAlphanum

/-- The HTTP-visible error outcomes of the generated handlers. -/
inductive ApiError where
  | badRequest (messages : List String)
  | notFound (message : String) (id : Str)
  | conflict (message : String)
deriving DecidableEq, Repr

/-- The framework message for a path parameter that fails the
`id_pattern` regex (422). -/
def idFormatErrorMsg : String := "String should match pattern"

/-- Handler `get_item` of `create_read_router` (router.py lines 101-111) wired
for the Bot resource: id format check, then primary-key lookup. -/
def get_item (db : List BotRow) (item_id : Str) : Except ApiError BotRow :=
  if !matchesIdFormat item_id then .error (.badRequest [idFormatErrorMsg])
  else match db.find? (fun r => r.id = item_id) with
    | none => .error (.notFound "Bot not found" item_id)
    | some r => .ok r

/-- A JSON field of an update request body: absent, explicit null, or a
value. -/
inductive BodyField (α : Type) where
  | absent
  | null
  | val (v : α)
deriving DecidableEq, Repr

/-- The raw `BotUpdate` request body (schemas/bot.py lines 28-46): every
field optional. -/
structure BotUpdateBody where
  rig_id : BodyField Str := .absent
  kill_switch : BodyField Bool := .absent
  last_run_log : BodyField Str := .absent
deriving DecidableEq, Repr

/-- Validator `BotUpdate.reject_none_for_non_nullable` (schemas/bot.py lines
39-46): pydantic runs the validator on each provided value, collecting
one `f"{info.field_name} cannot be null"` message per rejected field; a
non-empty error list means the request is rejected with 422 before the
handler runs. -/
def validateBotUpdate (b : BotUpdateBody) : List String :=
  (match b.rig_id with
   | .null => ["rig_id cannot be null"]
   | _ => []) ++
  (match b.kill_switch with
   | .null => ["kill_switch cannot be null"]
   | _ => [])

/-- The `setattr` loop over `payload.model_dump(exclude_unset=True)`
(router.py lines 214-216): absent fields are not in the dump; an
explicit null on the nullable `last_run_log` is dumped as `None` and
stored as NULL.  (The null cases of the non-nullable fields are
unreachable behind `validateBotUpdate`.) -/
def applyBodyFields (r : BotRow) (b : BotUpdateBody) : BotRow :=
  let r1 := match b.rig_id with
    | .val v => { r with rig_id := v }
    | _ => r
  let r2 := match b.kill_switch with
    | .val v => { r1 with kill_switch := v }
    | _ => r1
  match b.last_run_log with
  | .absent => r2
  | .null => { r2 with last_run_log := none }
  | .val v => { r2 with last_run_log := some v }

/-- Whether the handler performed any `setattr` on the row.  SQLAlchemy
marks an object dirty exactly when some attribute received a set
operation; during flush the `before_update` listener
`_touch_last_update_at` (db/base.py lines 45-47) fires for dirty
objects, while a clean object gets no UPDATE statement and no event at
all (documented `MapperEvents.before_update` behavior). -/
def anyFieldSet (b : BotUpdateBody) : Bool :=
  b.rig_id ≠ BodyField.absent || b.kill_switch ≠ BodyField.absent ||
    b.last_run_log ≠ BodyField.absent

/-- Handler `update_item` of `create_update_router` (router.py lines 207-219)
wired with the Bot schemas: path-id format check and body validation
(both happen before the handler), then lookup, `setattr` of the provided
fields, and `db.commit()`, whose flush resets `last_update_at` to now
when and only when the row is dirty.  Returns the table state after the
request together with the response. -/
def update_item (db : List BotRow) (now : Int) (item_id : Str)
    (body : BotUpdateBody) : List BotRow × Except ApiError BotRow :=
  if !matchesIdFormat item_id then (db, .error (.badRequest [idFormatErrorMsg]))
  else
    let errs := validateBotUpdate body
    if !errs.isEmpty then (db, .error (.badRequest errs))
    else match db.find? (fun r => r.id = item_id) with
      | none => (db, .error (.notFound "Bot not found" item_id))
      | some r =>
        let r1 := applyBodyFields r body
        let r2 := if anyFieldSet body then { r1 with last_update_at := now } else r1
        (db.map (fun x => if x.id = item_id then r2 else x), .ok r2)

/-- Handler `delete_item` of `create_delete_router` (router.py lines 262-270):
id format check, lookup, hard delete of the found row. -/
def delete_item (db : List BotRow) (item_id : Str) : List BotRow × Except ApiError Unit :=
  if !matchesIdFormat item_id then (db, .error (.badRequest [idFormatErrorMsg]))
  else match db.find? (fun r => r.id = item_id) with
    | none => (db, .error (.notFound "Bot not found" item_id))
    | some _ => (db.eraseP (fun r => r.id = item_id), .ok ())

/-- Schema `BotCreate` (schemas/bot.py lines 10-25): only user-editable
fields. -/
structure BotCreate where
  rig_id : Str
  kill_switch : Bool := false
  last_run_log : Option Str := none
deriving DecidableEq, Repr

/-- Row construction `model(**payload.model_dump())` with the auto-managed defaults of
`TimestampedIdBase` (db/base.py lines 25-42): generated id, both
timestamps set to now, `last_run_at` unset (NULL). -/
def newBot (p : BotCreate) (genId : Str) (now : Int) : BotRow :=
  { id := genId, rig_id := p.rig_id, last_run_at := none,
    kill_switch := p.kill_switch, last_run_log := p.last_run_log,
    create_at := now, last_update_at := now }

/-- The storage-engine uniqueness-violation text (`exc.orig`) for the
bots primary key. -/
def pkViolationMsg : String := "UNIQUE constraint failed: bots.id"

/-- A request-scoped ORM session (db/session.py `get_db`): committed
table state, rows pending in the open transaction, and whether a failed
flush has poisoned the transaction (requiring rollback before any
further statement). -/
structure DbSession where
  rows : List BotRow
  pending : List BotRow
  failed : Bool
deriving DecidableEq, Repr

/-- Method `session.add(item)`. -/
def DbSession.add (s : DbSession) (r : BotRow) : DbSession :=
  { s with pending := s.pending ++ [r] }

/-- Method `session.commit()`: a poisoned session refuses further work until
rollback; otherwise the flush fails with the IntegrityError text when a
pending row duplicates a committed primary key, and commits the pending
rows otherwise. -/
def DbSession.commit (s : DbSession) : DbSession × Option String :=
  if s.failed then (s, some "PendingRollbackError")
  else if s.pending.any (fun p => s.rows.any fun r => r.id = p.id) then
    ({ s with failed := true }, some pkViolationMsg)
  else ({ rows := s.rows ++ s.pending, pending := [], failed := false }, none)

/-- Method `session.rollback()`: discard the pending transaction and clear the
failed state, leaving the session usable. -/
def DbSession.rollback (s : DbSession) : DbSession :=
  { rows := s.rows, pending := [], failed := false }

/-- Handler `create_item` of `create_create_router` (router.py lines 149-161):
construct the row, add, commit; on IntegrityError roll back and answer
409 with a detail that surfaces `exc.orig`.  Returns the session after
the request together with the response. -/
def create_item (s : DbSession) (payload : BotCreate) (genId : Str) (now : Int) :
    DbSession × Except ApiError BotRow :=
  let item := newBot payload genId now
  let c := (s.add item).commit
  match c.2 with
  | some orig =>
    (c.1.rollback, .error (.conflict ("Record conflicts with an existing entry: " ++ orig)))
  | none => (c.1, .ok item)

/-! ### Lemmas about the LIKE matcher and the wildcard escaping -/

theorem mem_suffixes {t s : Str} : t ∈ suffixes s ↔ t <:+ s := by
  induction s with
  | nil => simp [suffixes]
  | cons c s ih => simp [suffixes, List.suffix_cons_iff, ih]

theorem likeMatchCI_pct (p : List Char) (s : Str) :
    likeMatchCI ('%' :: p) s = (suffixes s).any fun t => likeMatchCI p t := by
  rw [likeMatchCI.eq_def]; simp

theorem likeMatchCI_esc_nil (d : Char) (p : List Char) :
    likeMatchCI ('\\' :: d :: p) [] = false := by
  rw [likeMatchCI.eq_def]; simp

theorem likeMatchCI_esc_cons (d : Char) (p : List Char) (e : Char) (s2 : Str) :
    likeMatchCI ('\\' :: d :: p) (e :: s2) =
      ((e.toLower = d.toLower) && likeMatchCI p s2) := by
  rw [likeMatchCI.eq_def]; simp

theorem likeMatchCI_lit_nil (c : Char) (p : List Char)
    (h1 : c ≠ '%') (h2 : c ≠ '\\') (h3 : c ≠ '_') :
    likeMatchCI (c :: p) [] = false := by
  rw [likeMatchCI.eq_def]; simp [h1, h2, h3]

theorem likeMatchCI_lit_cons (c : Char) (p : List Char) (e : Char) (s2 : Str)
    (h1 : c ≠ '%') (h2 : c ≠ '\\') (h3 : c ≠ '_') :
    likeMatchCI (c :: p) (e :: s2) =
      ((e.toLower = c.toLower) && likeMatchCI p s2) := by
  rw [likeMatchCI.eq_def]; simp [h1, h2, h3]

theorem replaceChar_cons (c : Char) (r : Str) (x : Char) (s : Str) :
    replaceChar c r (x :: s) = (if x = c then r else [x]) ++ replaceChar c r s := by
  simp [replaceChar]

theorem replaceChar_append (c : Char) (r : Str) (a b : Str) :
    replaceChar c r (a ++ b) = replaceChar c r a ++ replaceChar c r b := by
  simp [replaceChar]

theorem escapeLike_eq_flatMap (v : Str) : escapeLike v = v.flatMap escChar := by
  induction v with
  | nil => rfl
  | cons c v ih =>
    have step : escapeLike (c :: v) = escChar c ++ escapeLike v := by
      by_cases h1 : c = '\\'
      · subst h1; simp [escapeLike, replaceChar_cons, replaceChar_append, escChar]
      · by_cases h2 : c = '%'
        · subst h2; simp [escapeLike, replaceChar_cons, replaceChar_append, escChar]
        · by_cases h3 : c = '_'
          · subst h3; simp [escapeLike, replaceChar_cons, replaceChar_append, escChar]
          · simp [escapeLike, replaceChar_cons, replaceChar_append, escChar, h1, h2, h3]
    rw [step, ih, List.flatMap_cons]

theorem likeMatch_escaped_append (v : Str) (p : List Char) (s : Str) :
    likeMatchCI (v.flatMap escChar ++ p) s = true ↔
      ∃ s1 s2, s = s1 ++ s2 ∧ s1.map Char.toLower = v.map Char.toLower ∧
        likeMatchCI p s2 = true := by
  induction v generalizing s with
  | nil =>
    simp only [List.flatMap_nil, List.nil_append, List.map_nil]
    constructor
    · intro h; exact ⟨[], s, rfl, rfl, h⟩
    · rintro ⟨s1, s2, rfl, h1, h2⟩
      have hs1 : s1 = [] := by
        have := congrArg List.length h1
        simpa using this
      subst hs1; simpa using h2
  | cons c v ih =>
    by_cases hc : c = '\\' ∨ c = '%' ∨ c = '_'
    · have hesc : escChar c = ['\\', c] := by simp [escChar, hc]
      rw [List.flatMap_cons, hesc, List.append_assoc]
      show likeMatchCI ('\\' :: c :: (v.flatMap escChar ++ p)) s = true ↔ _
      cases s with
      | nil =>
        rw [likeMatchCI_esc_nil]
        simp only [List.map_cons]
        constructor
        · intro h; cases h
        · rintro ⟨s1, s2, h0, hm, hlk⟩
          cases s1 with
          | nil => simp at hm
          | cons a t => simp at h0
      | cons e s2 =>
        rw [likeMatchCI_esc_cons]
        simp only [Bool.and_eq_true, decide_eq_true_eq, ih, List.map_cons]
        constructor
        · rintro ⟨he, t1, t2, rfl, hm, hlk⟩
          exact ⟨e :: t1, t2, rfl, by simp [he, hm], hlk⟩
        · rintro ⟨s1, t2, h0, hm, hlk⟩
          cases s1 with
          | nil => simp at hm
          | cons a t1 =>
            rw [List.cons_append] at h0
            have hae := (List.cons.inj h0).1
            have hst := (List.cons.inj h0).2
            subst hae; subst hst
            simp only [List.map_cons, List.cons.injEq] at hm
            exact ⟨hm.1, t1, t2, rfl, hm.2, hlk⟩
    · push_neg at hc
      obtain ⟨h1, h2, h3⟩ := hc
      have hesc : escChar c = [c] := by simp [escChar, h1, h2, h3]
      rw [List.flatMap_cons, hesc, List.append_assoc]
      show likeMatchCI (c :: (v.flatMap escChar ++ p)) s = true ↔ _
      cases s with
      | nil =>
        rw [likeMatchCI_lit_nil c _ h2 h1 h3]
        simp only [List.map_cons]
        constructor
        · intro h; cases h
        · rintro ⟨s1, s2, h0, hm, hlk⟩
          cases s1 with
          | nil => simp at hm
          | cons a t => simp at h0
      | cons e s2 =>
        rw [likeMatchCI_lit_cons c _ e s2 h2 h1 h3]
        simp only [Bool.and_eq_true, decide_eq_true_eq, ih, List.map_cons]
        constructor
        · rintro ⟨he, t1, t2, rfl, hm, hlk⟩
          exact ⟨e :: t1, t2, rfl, by simp [he, hm], hlk⟩
        · rintro ⟨s1, t2, h0, hm, hlk⟩
          cases s1 with
          | nil => simp at hm
          | cons a t1 =>
            rw [List.cons_append] at h0
            have hae := (List.cons.inj h0).1
            have hst := (List.cons.inj h0).2
            subst hae; subst hst
            simp only [List.map_cons, List.cons.injEq] at hm
            exact ⟨hm.1, t1, t2, rfl, hm.2, hlk⟩

theorem likeMatchCI_pct_always (t : Str) : likeMatchCI ['%'] t = true := by
  rw [likeMatchCI_pct, List.any_eq_true]
  exact ⟨[], mem_suffixes.mpr List.nil_suffix, rfl⟩

/-- The compiled ILIKE pattern `%escaped%` matches exactly the strings
that contain the raw search value as literal text, case-insensitively. -/
theorem likeMatch_containsPattern (v s : Str) :
    likeMatchCI (containsPattern v) s = true ↔
      (v.map Char.toLower) <:+: (s.map Char.toLower) := by
  have hshape : containsPattern v = '%' :: (v.flatMap escChar ++ ['%']) := by
    simp [containsPattern, escapeLike_eq_flatMap]
  rw [hshape, likeMatchCI_pct, List.any_eq_true]
  constructor
  · rintro ⟨t, hmem, hlk⟩
    obtain ⟨u, rfl⟩ := mem_suffixes.mp hmem
    obtain ⟨t1, t2, rfl, hmap, _⟩ := (likeMatch_escaped_append v ['%'] t).mp hlk
    exact ⟨u.map Char.toLower, t2.map Char.toLower, by
      simp [← hmap, List.append_assoc]⟩
  · rintro ⟨u1, u2, heq⟩
    have heq2 : s.map Char.toLower = u1 ++ (v.map Char.toLower ++ u2) := by
      rw [← heq, List.append_assoc]
    obtain ⟨a, b, rfl, ha, hb⟩ := List.map_eq_append_iff.mp heq2
    obtain ⟨b1, b2, rfl, hb1, hb2⟩ := List.map_eq_append_iff.mp hb
    refine ⟨b1 ++ b2, mem_suffixes.mpr ⟨a, rfl⟩, ?_⟩
    exact (likeMatch_escaped_append v ['%'] (b1 ++ b2)).mpr
      ⟨b1, b2, rfl, hb1, likeMatchCI_pct_always b2⟩

theorem matchesQuery_append (q1 q2 : List Clause) (r : BotRow) :
    matchesQuery (q1 ++ q2) r = (matchesQuery q1 r && matchesQuery q2 r) := by
  simp [matchesQuery, List.all_append]

/-- Claim C1: for every SUBSTRING (ILIKE) filter descriptor and every
supplied search string, the compiled predicate escapes the
pattern-matching metacharacters `%`, `_` and `\` before building the
case-insensitive contains predicate, so a record matches the filter (on
top of the base query) if and only if its field contains the search
string as literal text, compared case-insensitively; in particular a
literal `%` or `_` search value matches only records containing that
literal character, never all records. -/
theorem substring_filter_matches_literal_text
    (fld : FilterField) (hty : fld.filter_type = .ILIKE)
    (vals : String → Option ParamV) (v : Str)
    (hval : vals fld.effective_param_name = some (.str v))
    (q : List Clause) (r : BotRow) (s : Str)
    (hcol : r.getCol fld.column_name = .str s) :
    matchesQuery (apply_filters q [fld] vals) r = true ↔
      (matchesQuery q r = true ∧ (v.map Char.toLower) <:+: (s.map Char.toLower)) := by
  obtain ⟨col, ty, pn⟩ := fld
  have hty2 : ty = .ILIKE := hty
  subst hty2
  have hred : apply_filters q [⟨col, .ILIKE, pn⟩] vals
      = q ++ [fun r => (BotRow.getCol r col).ilike (containsPattern v)] := by
    simp only [apply_filters]
    rw [hval]
    rfl
  rw [hred, matchesQuery_append]
  simp only [matchesQuery, List.all_cons, List.all_nil, Bool.and_true, Bool.and_eq_true]
  rw [hcol]
  simp only [Value.ilike]
  exact and_congr_right fun _ => likeMatch_containsPattern v s

/-- Witness for C1 at a concrete input: searching for a literal `%`
matches a record whose log contains `%`. -/
theorem substring_filter_matches_literal_text_witness :
    matchesQuery
      (apply_filters []
        [{ column_name := .last_run_log, filter_type := .ILIKE,
           param_name := some "log_search" }]
        (fun p => if p = "log_search" then some (.str ['%']) else none))
      { id := ['x'], rig_id := ['r'], last_run_at := none, kill_switch := false,
        last_run_log := some ['a', '%', 'b'], create_at := 0, last_update_at := 0 }
      = true := by
  exact (substring_filter_matches_literal_text
    { column_name := .last_run_log, filter_type := .ILIKE, param_name := some "log_search" }
    rfl
    (fun p => if p = "log_search" then some (.str ['%']) else none)
    ['%'] rfl []
    { id := ['x'], rig_id := ['r'], last_run_at := none, kill_switch := false,
      last_run_log := some ['a', '%', 'b'], create_at := 0, last_update_at := 0 }
    ['a', '%', 'b'] rfl).mpr ⟨rfl, by decide⟩

/-! ### Pagination arithmetic -/

theorem le_ceilNat_mul (total pp : Nat) (hpp : 0 < pp) :
    total ≤ ceilNat total pp * pp := by
  have h1 : total + pp - 1 < (ceilNat total pp + 1) * pp :=
    (Nat.div_lt_iff_lt_mul hpp).mp (Nat.lt_succ_self _)
  rw [Nat.succ_mul] at h1
  generalize ceilNat total pp * pp = A at h1 ⊢
  omega

theorem ceilNat_pred_mul_lt (total pp : Nat) (hpp : 0 < pp) (ht : 0 < total) :
    (ceilNat total pp - 1) * pp < total := by
  have h2 : ceilNat total pp * pp ≤ total + pp - 1 := Nat.div_mul_le_self _ _
  rw [Nat.sub_mul, Nat.one_mul]
  generalize ceilNat total pp * pp = A at h2 ⊢
  omega

theorem ceilNat_pos (total pp : Nat) (hpp : 0 < pp) (ht : 0 < total) :
    0 < ceilNat total pp := by
  rw [ceilNat]
  exact (Nat.one_le_div_iff hpp).mpr (by omega)

/-- Function `ceilNat` is the mathematical ceiling of the exact quotient. -/
theorem ceilNat_eq_ceil (total pp : Nat) (hpp : 0 < pp) (ht : 0 < total) :
    ceilNat total pp = ⌈(total : ℚ) / (pp : ℚ)⌉₊ := by
  have hppq : (0 : ℚ) < (pp : ℚ) := by exact_mod_cast hpp
  have hne : ceilNat total pp ≠ 0 := Nat.pos_iff_ne_zero.mp (ceilNat_pos total pp hpp ht)
  symm
  rw [Nat.ceil_eq_iff hne]
  constructor
  · rw [lt_div_iff₀ hppq]
    exact_mod_cast ceilNat_pred_mul_lt total pp hpp ht
  · rw [div_le_iff₀ hppq]
    exact_mod_cast le_ceilNat_mul total pp hpp

/-- A sample row used by the concrete witnesses below. -/
def sampleRow : BotRow :=
  { id := ['x'], rig_id := ['r'], last_run_at := none, kill_switch := false,
    last_run_log := some ['a', '%', 'b'], create_at := 0, last_update_at := 0 }

/-- Claim C2: for every list request with per_page in [1, 100], the
returned envelope field `pages` equals the ceiling of total/per_page
when total > 0 and equals 0 when total = 0, where total is the count of
records matching the filters ignoring page bounds. -/
theorem list_pages_is_ceil (cfg : List FilterField) (db : List BotRow)
    (page pp : Nat) (vals : String → Option ParamV)
    (h1 : 1 ≤ pp) (h2 : pp ≤ 100) :
    ((list_items cfg db page pp vals).total = 0 →
        (list_items cfg db page pp vals).pages = 0) ∧
    (0 < (list_items cfg db page pp vals).total →
        (list_items cfg db page pp vals).pages
          = ⌈((list_items cfg db page pp vals).total : ℚ) / (pp : ℚ)⌉₊) ∧
    (list_items cfg db page pp vals).total
      = (db.filter (matchesQuery (apply_filters [] cfg vals))).length := by
  simp only [list_items]
  refine ⟨fun h0 => ?_, fun hpos => ?_, trivial⟩
  · simp [h0]
  · rw [if_pos hpos]
    exact ceilNat_eq_ceil _ pp (by omega) hpos

/-- Witness for C2 at a concrete input (one matching record,
per_page 20: one page). -/
theorem list_pages_is_ceil_witness :
    (0 : Nat) < (list_items [] [sampleRow] 1 20 (fun _ => none)).total ∧
    (list_items [] [sampleRow] 1 20 (fun _ => none)).pages
      = ⌈((list_items [] [sampleRow] 1 20 (fun _ => none)).total : ℚ) / (20 : ℚ)⌉₊ := by
  refine ⟨by decide, ?_⟩
  exact (list_pages_is_ceil [] [sampleRow] 1 20 (fun _ => none)
    (by decide) (by decide)).2.1 (by decide)

/-- Claim C7: a list request for a page beyond the last page is not an
error: it returns an envelope with an empty items list and accurate
total, page and pages values. -/
theorem beyond_last_page_returns_empty (cfg : List FilterField) (db : List BotRow)
    (page pp : Nat) (vals : String → Option ParamV)
    (hpp : 1 ≤ pp)
    (hbeyond : (list_items cfg db page pp vals).pages < page) :
    (list_items cfg db page pp vals).items = [] ∧
    (list_items cfg db page pp vals).total
      = (db.filter (matchesQuery (apply_filters [] cfg vals))).length ∧
    (list_items cfg db page pp vals).page = page := by
  simp only [list_items] at hbeyond ⊢
  refine ⟨?_, trivial, trivial⟩
  by_cases h0 : 0 < (db.filter (matchesQuery (apply_filters [] cfg vals))).length
  · rw [if_pos h0] at hbeyond
    have hoff : (db.filter (matchesQuery (apply_filters [] cfg vals))).length
        ≤ (page - 1) * pp := by
      have hle : ceilNat (db.filter (matchesQuery (apply_filters [] cfg vals))).length pp
          ≤ page - 1 := by omega
      calc (db.filter (matchesQuery (apply_filters [] cfg vals))).length
          ≤ ceilNat (db.filter (matchesQuery (apply_filters [] cfg vals))).length pp * pp :=
            le_ceilNat_mul _ _ (by omega)
        _ ≤ (page - 1) * pp := Nat.mul_le_mul_right _ hle
    rw [List.drop_eq_nil_of_le, List.take_nil]
    rw [List.length_insertionSort]
    exact hoff
  · have hm : db.filter (matchesQuery (apply_filters [] cfg vals)) = [] :=
      List.length_eq_zero.mp (by omega)
    rw [hm]
    simp [List.insertionSort]

/-- Witness for C7 at a concrete input (empty data set, page 1 is
already beyond the last page since pages = 0). -/
theorem beyond_last_page_returns_empty_witness :
    (list_items [] [] 1 20 (fun _ => none)).items = [] :=
  (beyond_last_page_returns_empty [] [] 1 20 (fun _ => none) (by decide) (by decide)).1

/-! ### Deterministic ordering -/

theorem botLT_of_botLE_of_ne {a b : BotRow} (h : botLE a b) (hne : a.id ≠ b.id) :
    botLT a b := by
  rcases h with h | ⟨e, i⟩
  · exact Or.inl h
  · exact Or.inr ⟨e, lt_of_le_of_ne i (Ne.symm hne)⟩

/-- Any two ORDER-BY-consistent orderings of the same record multiset
coincide when ids are pairwise distinct: the (create_at DESC, id DESC)
key is a total order because the secondary key id is unique. -/
theorem sorted_perm_unique (m l1 l2 : List BotRow)
    (hm : m.Pairwise (fun a b => a.id ≠ b.id))
    (p1 : l1.Perm m) (s1 : l1.Sorted botLE)
    (p2 : l2.Perm m) (s2 : l2.Sorted botLE) : l1 = l2 := by
  have hn1 : l1.Pairwise (fun a b => a.id ≠ b.id) :=
    (p1.pairwise_iff fun h => h.symm).mpr hm
  have hn2 : l2.Pairwise (fun a b => a.id ≠ b.id) :=
    (p2.pairwise_iff fun h => h.symm).mpr hm
  have s1' : l1.Sorted botLT :=
    List.Pairwise.imp₂ (fun _ _ h hne => botLT_of_botLE_of_ne h hne) s1 hn1
  have s2' : l2.Sorted botLT :=
    List.Pairwise.imp₂ (fun _ _ h hne => botLT_of_botLE_of_ne h hne) s2 hn2
  exact List.eq_of_perm_of_sorted (p1.trans p2.symm) s1' s2'

/-- Claim C8: two identical list requests against an unchanged data set
return items in identical order even when records share the primary
sort key: any row sequence the store may return for the configured
ORDER BY (a `botLE`-sorted permutation of the filtered records) equals
the one the envelope is built from, so the returned page is uniquely
determined by the data and the request. -/
theorem list_page_deterministic (cfg : List FilterField) (db : List BotRow)
    (page pp : Nat) (vals : String → Option ParamV) (l : List BotRow)
    (hids : db.Pairwise (fun a b => a.id ≠ b.id))
    (hperm : l.Perm (db.filter (matchesQuery (apply_filters [] cfg vals))))
    (hsort : l.Sorted botLE) :
    (l.drop ((page - 1) * pp)).take pp = (list_items cfg db page pp vals).items := by
  have hfids : (db.filter (matchesQuery (apply_filters [] cfg vals))).Pairwise
      (fun a b => a.id ≠ b.id) :=
    hids.sublist (List.filter_sublist db)
  have hl : l = List.insertionSort botLE
      (db.filter (matchesQuery (apply_filters [] cfg vals))) :=
    sorted_perm_unique _ _ _ hfids hperm hsort
      (List.perm_insertionSort botLE _) (List.sorted_insertionSort botLE _)
  rw [hl]
  rfl

/-- A second sample row sharing `create_at` with `sampleRow` but with a
different id, to exercise tie-breaking. -/
def sampleRow2 : BotRow :=
  { id := ['y'], rig_id := ['r'], last_run_at := none, kill_switch := true,
    last_run_log := none, create_at := 0, last_update_at := 0 }

/-- Witness for C8 at a concrete input: two rows tie on create_at; the
id-sorted sequence is the unique admissible result. -/
theorem list_page_deterministic_witness :
    ([sampleRow2, sampleRow].drop ((1 - 1) * 20)).take 20
      = (list_items [] [sampleRow, sampleRow2] 1 20 (fun _ => none)).items := by
  exact list_page_deterministic [] [sampleRow, sampleRow2] 1 20 (fun _ => none)
    [sampleRow2, sampleRow] (by decide) (by decide) (by decide)

/-- Claim C10: a descriptor whose value (both values, for DATE_RANGE) is
absent contributes no predicate; an EXACT or SUBSTRING predicate never
matches a row whose filtered column is NULL; and with no supplied value
at all the compiler returns the base query unchanged. -/
theorem absent_values_add_no_predicate_and_null_never_matches :
    (∀ (fld : FilterField) (vals : String → Option ParamV) (q : List Clause),
       (fld.filter_type = .EXACT ∨ fld.filter_type = .ILIKE) →
       vals fld.effective_param_name = none →
       apply_filters q [fld] vals = q) ∧
    (∀ (fld : FilterField) (vals : String → Option ParamV) (q : List Clause),
       fld.filter_type = .DATE_RANGE →
       vals (fld.effective_param_name ++ "_after") = none →
       vals (fld.effective_param_name ++ "_before") = none →
       apply_filters q [fld] vals = q) ∧
    (∀ (fld : FilterField) (vals : String → Option ParamV) (q : List Clause)
       (r : BotRow) (v : ParamV),
       fld.filter_type = .EXACT →
       vals fld.effective_param_name = some v →
       r.getCol fld.column_name = .null →
       matchesQuery (apply_filters q [fld] vals) r = false) ∧
    (∀ (fld : FilterField) (vals : String → Option ParamV) (q : List Clause)
       (r : BotRow) (v : Str),
       fld.filter_type = .ILIKE →
       vals fld.effective_param_name = some (.str v) →
       r.getCol fld.column_name = .null →
       matchesQuery (apply_filters q [fld] vals) r = false) ∧
    (∀ (q : List Clause) (cfg : List FilterField),
       apply_filters q cfg (fun _ => none) = q) := by
  refine ⟨?_, ?_, ?_, ?_, ?_⟩
  · rintro ⟨col, ty, pn⟩ vals q (hty | hty) hval <;>
      · have hty2 := hty; subst hty2
        simp only [apply_filters]
        rw [hval]
        rfl
  · rintro ⟨col, ty, pn⟩ vals q hty hval1 hval2
    have hty2 := hty; subst hty2
    simp only [apply_filters]
    rw [hval1, hval2]
    rfl
  · rintro ⟨col, ty, pn⟩ vals q r v hty hval hnull
    have hty2 := hty; subst hty2
    have hnull2 : r.getCol col = Value.null := hnull
    simp only [apply_filters]
    rw [hval]
    show matchesQuery (whereOpt q (some v) _) r = false
    simp only [whereOpt, matchesQuery_append]
    simp [matchesQuery, hnull2, Value.sqlEq]
  · rintro ⟨col, ty, pn⟩ vals q r v hty hval hnull
    have hty2 := hty; subst hty2
    have hnull2 : r.getCol col = Value.null := hnull
    simp only [apply_filters]
    rw [hval]
    show matchesQuery (whereOpt q (some v) _) r = false
    simp only [whereOpt, matchesQuery_append]
    simp [matchesQuery, hnull2, Value.ilike]
  · intro q cfg
    induction cfg generalizing q with
    | nil => rfl
    | cons fld rest ih =>
      obtain ⟨col, ty, pn⟩ := fld
      cases ty <;> simp only [apply_filters, whereOpt, Option.none_bind] <;> exact ih q

/-- Witness for C10 at concrete inputs. -/
theorem absent_values_add_no_predicate_witness :
    (apply_filters [] [{ column_name := .rig_id, filter_type := .EXACT }]
        (fun _ => none) = []) ∧
    (apply_filters [] [{ column_name := .create_at, filter_type := .DATE_RANGE }]
        (fun _ => none) = []) ∧
    (matchesQuery
        (apply_filters [] [{ column_name := .last_run_at, filter_type := .EXACT }]
          (fun p => if p = "last_run_at" then some (.time 5) else none))
        sampleRow = false) ∧
    (matchesQuery
        (apply_filters []
          [{ column_name := .last_run_log, filter_type := .ILIKE,
             param_name := some "log_search" }]
          (fun p => if p = "log_search" then some (.str ['%']) else none))
        sampleRow2 = false) ∧
    (apply_filters [] botFilterConfig (fun _ => none) = []) := by
  refine ⟨?_, ?_, ?_, ?_, ?_⟩
  · exact absent_values_add_no_predicate_and_null_never_matches.1
      _ _ [] (Or.inl rfl) rfl
  · exact absent_values_add_no_predicate_and_null_never_matches.2.1
      _ _ [] rfl rfl rfl
  · exact absent_values_add_no_predicate_and_null_never_matches.2.2.1
      _ _ [] sampleRow (.time 5) rfl rfl rfl
  · exact absent_values_add_no_predicate_and_null_never_matches.2.2.2.1
      _ _ [] sampleRow2 ['%'] rfl rfl rfl
  · exact absent_values_add_no_predicate_and_null_never_matches.2.2.2.2 [] botFilterConfig

/-! ### Equivalence of the hand-written and generic bot list endpoints -/

theorem matchesQuery_nil (r : BotRow) : matchesQuery [] r = true := rfl

theorem matchesQuery_whereOpt (q : List Clause) (o : Option α) (mk : α → Clause)
    (r : BotRow) :
    matchesQuery (whereOpt q o mk) r
      = (matchesQuery q r && o.elim true fun v => mk v r) := by
  cases o <;> simp [whereOpt, matchesQuery_append, matchesQuery]

theorem elimOptMap (o : Option α) (g : α → β) (b : γ) (f : β → γ) :
    (o.map g).elim b f = o.elim b fun x => f (g x) := by
  cases o <;> rfl

theorem map_str_bind_asStr (o : Option Str) :
    (o.map ParamV.str).bind ParamV.asStr = o := by
  cases o <;> rfl

theorem map_time_bind_asTime (o : Option Int) :
    (o.map ParamV.time).bind ParamV.asTime = o := by
  cases o <;> rfl

theorem sqlEq_str (x y : Str) : (Value.str x).sqlEq (.str y) = decide (x = y) := rfl

theorem sqlEq_bool (x y : Bool) : (Value.bool x).sqlEq (.bool y) = decide (x = y) := rfl

theorem sqlGE_time (t b : Int) : (Value.time t).sqlGE b = decide (b ≤ t) := rfl

theorem sqlLE_time (t b : Int) : (Value.time t).sqlLE b = decide (t ≤ b) := rfl

theorem getCol_rig_id (r : BotRow) : r.getCol .rig_id = .str r.rig_id := rfl

theorem getCol_kill_switch (r : BotRow) :
    r.getCol .kill_switch = .bool r.kill_switch := rfl

theorem getCol_create_at (r : BotRow) : r.getCol .create_at = .time r.create_at := rfl

theorem getCol_last_update_at (r : BotRow) :
    r.getCol .last_update_at = .time r.last_update_at := rfl

theorem getCol_last_run_log_ilike (r : BotRow) (p : List Char) :
    (r.getCol .last_run_log).ilike p = optIlike r.last_run_log p := by
  cases h : r.last_run_log <;> simp [BotRow.getCol, Value.ilike, optIlike, h]

theorem getCol_last_run_at_sqlGE (r : BotRow) (a : Int) :
    (r.getCol .last_run_at).sqlGE a = optGE r.last_run_at a := by
  cases h : r.last_run_at <;> simp [BotRow.getCol, Value.sqlGE, optGE, h]

theorem getCol_last_run_at_sqlLE (r : BotRow) (b : Int) :
    (r.getCol .last_run_at).sqlLE b = optLE r.last_run_at b := by
  cases h : r.last_run_at <;> simp [BotRow.getCol, Value.sqlLE, optLE, h]

theorem botVals_rig_id (f : BotFilters) :
    botVals f "rig_id" = f.rig_id.map ParamV.str := rfl

theorem botVals_kill_switch (f : BotFilters) :
    botVals f "kill_switch" = f.kill_switch.map ParamV.bool := rfl

theorem botVals_log_search (f : BotFilters) :
    botVals f "log_search" = f.log_search.map ParamV.str := rfl

theorem botVals_create_at_after (f : BotFilters) :
    botVals f "create_at_after" = f.create_at_after.map ParamV.time := rfl

theorem botVals_create_at_before (f : BotFilters) :
    botVals f "create_at_before" = f.create_at_before.map ParamV.time := rfl

theorem botVals_last_update_at_after (f : BotFilters) :
    botVals f "last_update_at_after" = f.last_update_at_after.map ParamV.time := rfl

theorem botVals_last_update_at_before (f : BotFilters) :
    botVals f "last_update_at_before" = f.last_update_at_before.map ParamV.time := rfl

theorem botVals_last_run_at_after (f : BotFilters) :
    botVals f "last_run_at_after" = f.last_run_at_after.map ParamV.time := rfl

theorem botVals_last_run_at_before (f : BotFilters) :
    botVals f "last_run_at_before" = f.last_run_at_before.map ParamV.time := rfl

theorem epn_rig : FilterField.effective_param_name
    { column_name := .rig_id, filter_type := .EXACT } = "rig_id" := rfl

theorem epn_kill : FilterField.effective_param_name
    { column_name := .kill_switch, filter_type := .EXACT } = "kill_switch" := rfl

theorem epn_log : FilterField.effective_param_name
    { column_name := .last_run_log, filter_type := .ILIKE,
      param_name := some "log_search" } = "log_search" := rfl

theorem epn_ca : FilterField.effective_param_name
    { column_name := .create_at, filter_type := .DATE_RANGE } = "create_at" := rfl

theorem epn_ua : FilterField.effective_param_name
    { column_name := .last_update_at, filter_type := .DATE_RANGE }
      = "last_update_at" := rfl

theorem epn_ra : FilterField.effective_param_name
    { column_name := .last_run_at, filter_type := .DATE_RANGE } = "last_run_at" := rfl

theorem app_ca_a : "create_at" ++ "_after" = "create_at_after" := rfl

theorem app_ca_b : "create_at" ++ "_before" = "create_at_before" := rfl

theorem app_ua_a : "last_update_at" ++ "_after" = "last_update_at_after" := rfl

theorem app_ua_b : "last_update_at" ++ "_before" = "last_update_at_before" := rfl

theorem app_ra_a : "last_run_at" ++ "_after" = "last_run_at_after" := rfl

theorem app_ra_b : "last_run_at" ++ "_before" = "last_run_at_before" := rfl

/-- The generic predicate compiler on the Bot descriptor list selects
exactly the rows the hand-written `_apply_bot_filters` selects. -/
theorem bot_filters_equiv (f : BotFilters) (r : BotRow) :
    matchesQuery (apply_filters [] botFilterConfig (botVals f)) r
      = matchesQuery (apply_bot_filters [] f) r := by
  simp only [botFilterConfig, apply_filters, apply_bot_filters,
    epn_rig, epn_kill, epn_log, epn_ca, epn_ua, epn_ra,
    app_ca_a, app_ca_b, app_ua_a, app_ua_b, app_ra_a, app_ra_b,
    botVals_rig_id, botVals_kill_switch, botVals_log_search,
    botVals_create_at_after, botVals_create_at_before,
    botVals_last_update_at_after, botVals_last_update_at_before,
    botVals_last_run_at_after, botVals_last_run_at_before,
    map_str_bind_asStr, map_time_bind_asTime,
    matchesQuery_whereOpt, matchesQuery_nil, elimOptMap,
    getCol_rig_id, getCol_kill_switch, getCol_create_at, getCol_last_update_at,
    getCol_last_run_log_ilike, getCol_last_run_at_sqlGE, getCol_last_run_at_sqlLE,
    sqlEq_str, sqlEq_bool, sqlGE_time, sqlLE_time, containsPattern]

/-- Claim C9: for every database state and list request, the
hand-written bot list endpoint and the generic list endpoint produced by
the router factory configured with the Bot filter descriptors return equal
envelopes. -/
theorem list_bots_refines_generic (db : List BotRow) (page pp : Nat) (f : BotFilters) :
    list_bots db page pp f = list_items botFilterConfig db page pp (botVals f) := by
  have hfil : db.filter (matchesQuery (apply_bot_filters [] f))
      = db.filter (matchesQuery (apply_filters [] botFilterConfig (botVals f))) :=
    List.filter_congr fun x _ => (bot_filters_equiv f x).symm
  simp only [list_bots, list_items, hfil]

/-! ### Identifier validation and the update/create/delete paths -/

/-- A well-formed 32-character id used by the CRUD witnesses. -/
def wideId : Str := List.replicate 32 'a'

/-- A second, distinct well-formed id. -/
def wideId2 : Str := List.replicate 32 'b'

/-- A stored row with a well-formed id, used by the CRUD witnesses. -/
def updRow : BotRow :=
  { id := wideId, rig_id := ['r'], last_run_at := none, kill_switch := false,
    last_run_log := some ['l'], create_at := 0, last_update_at := 0 }

/-- Claim C6: the Get, Update and Delete endpoints accept or reject a
path id identically: each validates it against the same default format
constraint (exactly 32 characters from [a-zA-Z0-9]) before any lookup,
and a malformed id yields the same client input error from all three. -/
theorem id_format_parity (db : List BotRow) (now : Int) (id : Str)
    (body : BotUpdateBody) (hbody : validateBotUpdate body = []) :
    ((get_item db id = .error (.badRequest [idFormatErrorMsg]))
        ↔ matchesIdFormat id = false) ∧
    (((update_item db now id body).2 = .error (.badRequest [idFormatErrorMsg]))
        ↔ matchesIdFormat id = false) ∧
    (((delete_item db id).2 = .error (.badRequest [idFormatErrorMsg]))
        ↔ matchesIdFormat id = false) := by
  by_cases hid : matchesIdFormat id
  · refine ⟨?_, ?_, ?_⟩
    · simp only [get_item, hid, Bool.not_true, Bool.false_eq_true, if_false]
      rcases hf : db.find? (fun r => r.id = id) with _ | r <;> simp [hf, hid]
    · simp only [update_item, hid, Bool.not_true, Bool.false_eq_true, if_false,
        hbody, List.isEmpty_nil, Bool.not_true]
      rcases hf : db.find? (fun r => r.id = id) with _ | r <;> simp [hf, hid]
    · simp only [delete_item, hid, Bool.not_true, Bool.false_eq_true, if_false]
      rcases hf : db.find? (fun r => r.id = id) with _ | r <;> simp [hf, hid]
  · have hid2 : matchesIdFormat id = false := by simpa using hid
    simp [get_item, update_item, delete_item, hid2]

/-- Witness for C6 at a concrete malformed id (too short). -/
theorem id_format_parity_witness :
    (get_item [updRow] ['a'] = .error (.badRequest [idFormatErrorMsg])) ∧
    ((update_item [updRow] 0 ['a'] {}).2 = .error (.badRequest [idFormatErrorMsg])) ∧
    ((delete_item [updRow] ['a']).2 = .error (.badRequest [idFormatErrorMsg])) := by
  have h := id_format_parity [updRow] 0 ['a'] {} rfl
  exact ⟨h.1.mpr (by decide), h.2.1.mpr (by decide), h.2.2.mpr (by decide)⟩

/-- Counterexample to C3 as stated: an update with an entirely empty
body performs no `setattr`, so the flush issues no UPDATE, the
`before_update` listener never fires, and `last_update_at` keeps its old
value (0) instead of advancing to now (99). -/
theorem empty_update_does_not_touch_timestamp :
    update_item [updRow] 99 wideId {} = ([updRow], .ok updRow) ∧
    updRow.last_update_at = 0 ∧ (99 : Int) ≠ 0 := by
  refine ⟨?_, rfl, by decide⟩
  rfl

/-- Claim C3 (amended): for every existing record, an update with an
entirely empty body succeeds and returns the record with every field —
data fields and `last_update_at` alike — unchanged: the update path
issues no write for a clean object, so the timestamp does not advance. -/
theorem empty_update_is_full_noop (db : List BotRow) (now : Int) (id : Str)
    (r : BotRow) (hid : matchesIdFormat id = true)
    (hfind : db.find? (fun x => x.id = id) = some r)
    (huniq : ∀ x ∈ db, x.id = id → x = r) :
    update_item db now id {} = (db, .ok r) := by
  simp only [update_item, hid, Bool.not_true, Bool.false_eq_true, if_false]
  rw [show validateBotUpdate {} = [] from rfl]
  simp only [List.isEmpty_nil, Bool.not_true, Bool.false_eq_true, if_false]
  rw [hfind]
  have happ : applyBodyFields r {} = r := rfl
  have hany : anyFieldSet {} = false := rfl
  simp only [happ, hany, Bool.false_eq_true, if_false]
  have hmap : db.map (fun x => if x.id = id then r else x) = db := by
    calc db.map (fun x => if x.id = id then r else x)
        = db.map (fun x => x) := by
          refine List.map_congr_left fun x hx => ?_
          by_cases hxe : x.id = id
          · simp [hxe, huniq x hx hxe]
          · simp [hxe]
      _ = db := List.map_id' db
  rw [hmap]

/-- Witness for the amended C3 at a concrete input. -/
theorem empty_update_is_full_noop_witness :
    update_item [updRow] 99 wideId {} = ([updRow], .ok updRow) := by
  refine empty_update_is_full_noop [updRow] 99 wideId updRow (by decide) (by decide) ?_
  intro x hx _
  simpa using hx

theorem applyBodyFields_fields (r : BotRow) (b : BotUpdateBody) :
    (applyBodyFields r b).rig_id
        = (match b.rig_id with | .val v => v | _ => r.rig_id) ∧
    (applyBodyFields r b).kill_switch
        = (match b.kill_switch with | .val v => v | _ => r.kill_switch) ∧
    (applyBodyFields r b).last_run_log
        = (match b.last_run_log with
           | .absent => r.last_run_log | .null => none | .val v => some v) ∧
    (applyBodyFields r b).id = r.id ∧
    (applyBodyFields r b).create_at = r.create_at ∧
    (applyBodyFields r b).last_run_at = r.last_run_at := by
  rcases b with ⟨br, bk, bl⟩
  rcases br <;> rcases bk <;> rcases bl <;> exact ⟨rfl, rfl, rfl, rfl, rfl, rfl⟩

/-- Claim C4: in an update body, an absent field leaves the stored value
untouched, a present non-null value overwrites it, an explicit null on a
non-nullable field (rig_id, kill_switch) is rejected with a client input
error naming the field while the stored record stays unmodified, and an
explicit null on the nullable last_run_log is applied as NULL. -/
theorem update_null_and_partial_semantics (db : List BotRow) (now : Int)
    (id : Str) (body : BotUpdateBody) (hid : matchesIdFormat id = true)
    (r : BotRow) (hfind : db.find? (fun x => x.id = id) = some r) :
    (body.rig_id = .null →
      update_item db now id body
          = (db, .error (.badRequest (validateBotUpdate body))) ∧
      "rig_id cannot be null" ∈ validateBotUpdate body) ∧
    (body.kill_switch = .null →
      update_item db now id body
          = (db, .error (.badRequest (validateBotUpdate body))) ∧
      "kill_switch cannot be null" ∈ validateBotUpdate body) ∧
    (body.rig_id ≠ .null → body.kill_switch ≠ .null →
      ∃ r2, update_item db now id body
          = (db.map fun x => if x.id = id then r2 else x, .ok r2) ∧
        r2.rig_id = (match body.rig_id with | .val v => v | _ => r.rig_id) ∧
        r2.kill_switch = (match body.kill_switch with | .val v => v | _ => r.kill_switch) ∧
        r2.last_run_log = (match body.last_run_log with
          | .absent => r.last_run_log | .null => none | .val v => some v) ∧
        r2.id = r.id ∧ r2.create_at = r.create_at ∧ r2.last_run_at = r.last_run_at) := by
  refine ⟨?_, ?_, ?_⟩
  · intro hnull
    have ht : validateBotUpdate body = "rig_id cannot be null" ::
        (match body.kill_switch with
         | .null => ["kill_switch cannot be null"]
         | _ => []) := by
      simp [validateBotUpdate, hnull]
    have hne : (validateBotUpdate body).isEmpty = false := by rw [ht]; rfl
    constructor
    · simp only [update_item, hid, Bool.not_true, Bool.false_eq_true, if_false, hne,
        Bool.not_false, if_true]
    · rw [ht]; exact List.mem_cons_self _ _
  · intro hknull
    have hmem : "kill_switch cannot be null" ∈ validateBotUpdate body := by
      simp [validateBotUpdate, hknull]
    have hne : (validateBotUpdate body).isEmpty = false := by
      cases hv : validateBotUpdate body with
      | nil => rw [hv] at hmem; cases hmem
      | cons a t => rfl
    constructor
    · simp only [update_item, hid, Bool.not_true, Bool.false_eq_true, if_false, hne,
        Bool.not_false, if_true]
    · exact hmem
  · intro hr hk
    have herrs : validateBotUpdate body = [] := by
      rcases hbr : body.rig_id <;> rcases hbk : body.kill_switch <;>
        simp_all [validateBotUpdate]
    obtain ⟨h1, h2, h3, h4, h5, h6⟩ := applyBodyFields_fields r body
    refine ⟨if anyFieldSet body then { applyBodyFields r body with last_update_at := now }
        else applyBodyFields r body, ?_, ?_, ?_, ?_, ?_, ?_, ?_⟩
    · simp only [update_item, hid, Bool.not_true, Bool.false_eq_true, if_false, herrs,
        List.isEmpty_nil, Bool.not_true, hfind]
    · by_cases h : anyFieldSet body <;> simp [h, h1]
    · by_cases h : anyFieldSet body <;> simp [h, h2]
    · by_cases h : anyFieldSet body <;> simp [h, h3]
    · by_cases h : anyFieldSet body <;> simp [h, h4]
    · by_cases h : anyFieldSet body <;> simp [h, h5]
    · by_cases h : anyFieldSet body <;> simp [h, h6]

/-- Witness for C4: explicit null on rig_id at a concrete input. -/
theorem update_null_and_partial_semantics_witness :
    update_item [updRow] 5 wideId { rig_id := BodyField.null }
        = ([updRow], .error (.badRequest
            (validateBotUpdate { rig_id := BodyField.null }))) ∧
    "rig_id cannot be null"
        ∈ validateBotUpdate ({ rig_id := BodyField.null } : BotUpdateBody) := by
  exact (update_null_and_partial_semantics [updRow] 5 wideId
    { rig_id := BodyField.null } (by decide) updRow (by decide)).1 rfl

/-- Claim C5: a create that hits a storage uniqueness violation is
rolled back (nothing persisted, no failed transaction state left), a
409 Conflict is returned whose message surfaces the constraint failure
text, and the session stays usable: a following valid create in the
same session succeeds. -/
theorem create_conflict_recovery (s : DbSession) (p : BotCreate) (gid : Str)
    (now : Int) (hp : s.pending = []) (hf : s.failed = false)
    (hdup : (s.rows.any fun r => r.id = gid) = true) :
    create_item s p gid now
      = ({ rows := s.rows, pending := [], failed := false },
         .error (.conflict ("Record conflicts with an existing entry: "
            ++ pkViolationMsg))) ∧
    (∀ (p2 : BotCreate) (gid2 : Str) (now2 : Int),
      (s.rows.any fun r => r.id = gid2) = false →
      create_item { rows := s.rows, pending := [], failed := false } p2 gid2 now2
        = ({ rows := s.rows ++ [newBot p2 gid2 now2], pending := [],
             failed := false },
           .ok (newBot p2 gid2 now2))) := by
  constructor
  · rcases s with ⟨rows, pending, failed⟩
    have hp2 : pending = [] := hp
    have hf2 : failed = false := hf
    subst hp2; subst hf2
    simp [create_item, DbSession.add, DbSession.commit, DbSession.rollback,
      newBot, hdup]
  · intro p2 gid2 now2 hfresh
    simp [create_item, DbSession.add, DbSession.commit, DbSession.rollback,
      newBot, hfresh]

/-- Witness for C5: duplicate id conflict, then a fresh create succeeds,
at concrete inputs. -/
theorem create_conflict_recovery_witness :
    create_item { rows := [updRow], pending := [], failed := false }
        { rig_id := ['r'] } wideId 7
      = ({ rows := [updRow], pending := [], failed := false },
         .error (.conflict ("Record conflicts with an existing entry: "
            ++ pkViolationMsg))) ∧
    create_item { rows := [updRow], pending := [], failed := false }
        { rig_id := ['r'] } wideId2 8
      = ({ rows := [updRow] ++ [newBot { rig_id := ['r'] } wideId2 8],
           pending := [], failed := false },
         .ok (newBot { rig_id := ['r'] } wideId2 8)) := by
  have h := create_conflict_recovery
    { rows := [updRow], pending := [], failed := false }
    { rig_id := ['r'] } wideId 7 rfl rfl (by decide)
  exact ⟨h.1, h.2 { rig_id := ['r'] } wideId2 8 (by decide)⟩
